import Mathlib

/-!
Verification of the client-side persistence and resource-caching layer
(`appStateManager` / `appDocsManager`).

The TypeScript source is embedded shallowly: JavaScript `Map`s and plain
objects become association lists, promises become explicit values — a promise
that has settled is an `Except` value (`.ok` = resolved, `.error` = rejected)
and a promise that may still be in flight is a numeric future id allocated
from a counter.  Thrown `TypeError`s (e.g. dereferencing `undefined`) are
modelled as `Except.error`.  Optional / possibly-`undefined` fields are
`Option`s.  Opaque payloads (dialog records, message records, chat/user
objects, blobs) are represented by `Nat`.
-/

namespace Tweb

/-- Association-list lookup; models `Map.get` / JS object indexing
(`none` = `undefined`). -/
def alGet {α β : Type} [DecidableEq α] : List (α × β) → α → Option β
  | [], _ => none
  | (k, v) :: rest, key => if k = key then some v else alGet rest key

/-- Remove every binding for `key`; helper for `alSet`. -/
def alRemove {α β : Type} [DecidableEq α] : List (α × β) → α → List (α × β)
  | [], _ => []
  | (k, v) :: rest, key =>
    if k = key then alRemove rest key else (k, v) :: alRemove rest key

/-- Association-list update; models `Map.set` / JS object key assignment. -/
def alSet {α β : Type} [DecidableEq α] (l : List (α × β)) (key : α) (v : β) :
    List (α × β) :=
  (key, v) :: alRemove l key

/-! ## Peer Demand Tracker (`appStateManager`: `requestPeer`, `isPeerNeeded`,
`keepPeerSingle`) -/

/-- Signals dispatched on the event bus by the peer demand tracker. -/
inductive PeerEvent
  | peerNeeded (peerId : Int)
  | peerUnneeded (peerId : Int)
deriving DecidableEq, Repr

/-- The tracker's state: `neededPeers : Map<number, Set<string>>` (tag sets as
lists without duplicates) and `singlePeerMap : Map<string, number>`. -/
structure PeerState where
  neededPeers : List (Int × List String)
  singlePeerMap : List (String × Int)
deriving DecidableEq, Repr

def emptyPeerState : PeerState := ⟨[], []⟩

/-- Source `keepPeerSingle(peerId, type)`.  Mirrors the source: if another peer
currently holds the slot for `type` (JS truthiness: `existsPeerId` must be
non-zero) it is evicted — `set.delete(type)` is called on
`neededPeers.get(existsPeerId)` WITHOUT a presence check, so when the previous
holder is absent from `neededPeers` this dereferences `undefined` and throws a
`TypeError` (modelled as `Except.error ()`).  Afterwards the new peer is
recorded as the slot holder. -/
def keepPeerSingle (st : PeerState) (peerId : Int) (type : String) :
    Except Unit (PeerState × List PeerEvent) :=
  match alGet st.singlePeerMap type with
  | some existsPeerId =>
    if existsPeerId ≠ 0 ∧ existsPeerId ≠ peerId then
      match alGet st.neededPeers existsPeerId with
      | none => Except.error ()
      | some set =>
        let set1 := set.erase type
        if set1.isEmpty then
          Except.ok
            ({ neededPeers := alRemove st.neededPeers existsPeerId,
               singlePeerMap := alSet st.singlePeerMap type peerId },
             [PeerEvent.peerUnneeded existsPeerId])
        else
          Except.ok
            ({ neededPeers := alSet st.neededPeers existsPeerId set1,
               singlePeerMap := alSet st.singlePeerMap type peerId },
             [])
    else
      Except.ok ({ st with singlePeerMap := alSet st.singlePeerMap type peerId }, [])
  | none =>
    Except.ok ({ st with singlePeerMap := alSet st.singlePeerMap type peerId }, [])

/-- The part of `requestPeer` after the dedup check: create/extend the tag
set, dispatch `peerNeeded`, then (when a `limit` was passed) run
`keepPeerSingle`. -/
def requestPeerAdd (st : PeerState) (peerId : Int) (type : String)
    (limit : Option Nat) (set : List String) :
    Except Unit (PeerState × List PeerEvent) :=
  let st1 : PeerState :=
    { st with neededPeers := alSet st.neededPeers peerId (set ++ [type]) }
  match limit with
  | some _ =>
    match keepPeerSingle st1 peerId type with
    | Except.ok (st2, events2) =>
      Except.ok (st2, PeerEvent.peerNeeded peerId :: events2)
    | Except.error e => Except.error e
  | none => Except.ok (st1, [PeerEvent.peerNeeded peerId])

/-- Source `requestPeer(peerId, type, limit?)`: no-op when `type` is already
registered for `peerId`; otherwise registers it and emits `peerNeeded`
(before the optional single-slot handling, as in the source). -/
def requestPeer (st : PeerState) (peerId : Int) (type : String)
    (limit : Option Nat) : Except Unit (PeerState × List PeerEvent) :=
  match alGet st.neededPeers peerId with
  | some set =>
    if set.contains type then Except.ok (st, [])
    else requestPeerAdd st peerId type limit set
  | none => requestPeerAdd st peerId type limit []

/-- Source `isPeerNeeded(peerId)`: pure membership lookup. -/
def isPeerNeeded (st : PeerState) (peerId : Int) : Bool :=
  (alGet st.neededPeers peerId).isSome

/-- Claim C4 (counterexample): the single-slot map records peer 5 as holder of
slot "a" while peer 5 is absent from the demand map; `keepPeerSingle 7 "a"`
then throws (`set.delete` on `undefined`) instead of being a no-op, refuting
"it does not raise an error".  The state is reachable through the public API:
`keepPeerSingle(5, "a")` on a fresh tracker records the holder without any
demand-map entry. -/
theorem keepPeerSingle_missing_holder_cex :
    keepPeerSingle ⟨[], []⟩ 5 "a" =
      Except.ok (⟨[], [("a", 5)]⟩, []) ∧
    keepPeerSingle ⟨[], [("a", 5)]⟩ 7 "a" = Except.error () := by
  constructor
  · rfl
  · rfl

/-- Claim C4 (amended): when the single-slot map records a previous holder
(non-zero, distinct from the new peer) that is absent from the demand map,
`keepPeerSingle` raises an error (the JS code throws a `TypeError`); in
particular the new peer is not recorded as the slot holder. -/
theorem keepPeerSingle_missing_holder_errors (st : PeerState) (p prev : Int)
    (t : String) (h1 : alGet st.singlePeerMap t = some prev) (h2 : prev ≠ 0)
    (h3 : prev ≠ p) (h4 : alGet st.neededPeers prev = none) :
    keepPeerSingle st p t = Except.error () := by
  simp [keepPeerSingle, h1, h2, h3, h4]

/-- Witness for `keepPeerSingle_missing_holder_errors` at the concrete state
`⟨[], [("a", 5)]⟩` with new peer 7. -/
theorem keepPeerSingle_missing_holder_errors_witness :
    alGet (⟨[], [("a", 5)]⟩ : PeerState).singlePeerMap "a" = some 5 ∧
    keepPeerSingle ⟨[], [("a", 5)]⟩ 7 "a" = Except.error () :=
  ⟨by rfl,
   keepPeerSingle_missing_holder_errors ⟨[], [("a", 5)]⟩ 7 5 "a" (by rfl)
     (by decide) (by decide) (by rfl)⟩

/-- Claim C5: `requestPeer(5, "a")` twice emits exactly one `peerNeeded`
signal (the second call is a no-op); `requestPeer(5, "a", limit)` then
`requestPeer(7, "a", limit)` removes tag "a" from peer 5, emits `peerUnneeded`
for peer 5 (after `peerNeeded` for 7, which the source dispatches before the
single-slot handling), leaves peer 7 needed, and records 7 as the slot
holder — the eviction happens inside `keepPeerSingle` before the new holder
is recorded. -/
theorem requestPeer_dedup_and_single_slot :
    requestPeer emptyPeerState 5 "a" none =
      Except.ok (⟨[(5, ["a"])], []⟩, [PeerEvent.peerNeeded 5]) ∧
    requestPeer ⟨[(5, ["a"])], []⟩ 5 "a" none =
      Except.ok (⟨[(5, ["a"])], []⟩, []) ∧
    requestPeer emptyPeerState 5 "a" (some 1) =
      Except.ok (⟨[(5, ["a"])], [("a", 5)]⟩, [PeerEvent.peerNeeded 5]) ∧
    requestPeer ⟨[(5, ["a"])], [("a", 5)]⟩ 7 "a" (some 1) =
      Except.ok (⟨[(7, ["a"])], [("a", 7)]⟩,
        [PeerEvent.peerNeeded 7, PeerEvent.peerUnneeded 5]) ∧
    isPeerNeeded ⟨[(7, ["a"])], [("a", 7)]⟩ 5 = false ∧
    isPeerNeeded ⟨[(7, ["a"])], [("a", 7)]⟩ 7 = true := by
  refine ⟨rfl, rfl, rfl, ?_, rfl, rfl⟩
  rfl

/-! ## Document Registry (`appDocsManager.saveDoc` and helpers) -/

/-- The `_` constructor tag of an `MTDocument`. -/
inductive DocTag
  | document
  | documentEmpty
deriving DecidableEq, Repr

/-- The `_` tag of the legacy singular `thumb` field. -/
inductive ThumbTag
  | photoSize
  | photoCachedSize
  | photoSizeEmpty
deriving DecidableEq, Repr

/-- Legacy singular `apiDoc.thumb` (`location` is an opaque small-file key). -/
structure DocThumb where
  tag : ThumbTag
  bytes : Option (List Nat)
  size : Nat
  location : Nat
deriving DecidableEq, Repr

/-- An entry of the `thumbs` list; only the presence of inline `bytes`
matters to the merge logic (`type` is the size tag). -/
structure PhotoSize where
  bytes : Option (List Nat)
  type : String
deriving DecidableEq, Repr

/-- Models `attribute.stickerset`. -/
inductive StickerSetRef
  | inputStickerSetEmpty
  | inputStickerSetID (id : Nat)
deriving DecidableEq, Repr

/-- The closed union of document attributes inspected by `saveDoc`
(`pFlags.voice` / `pFlags.round_message` are the boolean flags). -/
inductive DocAttribute
  | documentAttributeFilename (file_name : String)
  | documentAttributeAudio (duration : Nat) (title performer : String)
      (voice : Bool)
  | documentAttributeVideo (duration w h : Nat) (round_message : Bool)
  | documentAttributeSticker (alt : Option String)
      (stickerset : Option StickerSetRef)
  | documentAttributeImageSize (w h : Nat)
  | documentAttributeAnimated
deriving DecidableEq, Repr

/-- The canonical document descriptor (`MTDocument`), with exactly the fields
`appDocsManager` reads or writes.  Absent JS fields are `none`. -/
structure MTDocument where
  tag : DocTag
  id : Nat
  access_hash : Nat
  file_reference : Nat
  dc_id : Nat
  size : Nat
  attributes : List DocAttribute
  thumb : Option DocThumb
  thumbs : Option (List PhotoSize)
  mime_type : Option String
  file_name : Option String
  type : Option String
  duration : Option Nat
  w : Option Nat
  h : Option Nat
  audioTitle : Option String
  audioPerformer : Option String
  stickerEmojiRaw : Option String
  stickerEmoji : Option String
  stickerSetInput : Option Nat
  sticker : Option Nat
  animated : Bool
  downloaded : Bool
  url : Option String
deriving DecidableEq, Repr

/-- A fully-absent document to build concrete test inputs from. -/
def baseDoc : MTDocument where
  tag := DocTag.document
  id := 0
  access_hash := 0
  file_reference := 0
  dc_id := 0
  size := 100
  attributes := []
  thumb := none
  thumbs := none
  mime_type := none
  file_name := none
  type := none
  duration := none
  w := none
  h := none
  audioTitle := none
  audioPerformer := none
  stickerEmojiRaw := none
  stickerEmoji := none
  stickerSetInput := none
  sticker := none
  animated := false
  downloaded := false
  url := none

/-- The `RichTextProcessor` lives outside this layer (text/markup rendering is an
excluded collaborator); its two text-wrapping functions are taken as
parameters. -/
structure RichTextProc where
  wrapPlainText : String → String
  wrapRichText : String → String

def idRichTextProc : RichTextProc := ⟨id, id⟩

/-- JS truthiness of an optional string (`undefined` and `''` are falsy). -/
def strFalsy : Option String → Bool
  | none => true
  | some s => s = ""

/-- JS truthiness of an optional number (`undefined` and `0` are falsy). -/
def natTruthy : Option Nat → Bool
  | none => false
  | some n => n ≠ 0

/-- One step of the `apiDoc.attributes.forEach` normalization switch.  Note
that each case only reads `mime_type` and `thumbs` (never writes them), and
a later attribute overwrites `type` set by an earlier one. -/
def processAttribute (tp : RichTextProc) (d : MTDocument) :
    DocAttribute → MTDocument
  | DocAttribute.documentAttributeFilename fn =>
    { d with file_name := some (tp.wrapPlainText fn) }
  | DocAttribute.documentAttributeAudio dur title performer voice =>
    { d with duration := some dur, audioTitle := some title,
             audioPerformer := some performer,
             type := some (if voice then "voice" else "audio") }
  | DocAttribute.documentAttributeVideo dur w h round_message =>
    let d1 := { d with duration := some dur, w := some w, h := some h }
    if d1.thumbs.isSome ∧ round_message then { d1 with type := some "round" }
    else { d1 with type := some "video" }
  | DocAttribute.documentAttributeSticker alt stickerset =>
    let d1 := match alt with
      | some a => { d with stickerEmojiRaw := some a,
                           stickerEmoji := some (tp.wrapRichText a) }
      | none => d
    let d2 := match stickerset with
      | some (StickerSetRef.inputStickerSetID sid) =>
        { d1 with stickerSetInput := some sid }
      | _ => d1
    if d2.mime_type = some "image/webp" then
      { d2 with type := some "sticker", sticker := some 1 }
    else d2
  | DocAttribute.documentAttributeImageSize w h =>
    { d with w := some w, h := some h }
  | DocAttribute.documentAttributeAnimated =>
    let d1 :=
      if (d.mime_type = some "image/gif" ∨ d.mime_type = some "video/mp4") ∧
          d.thumbs.isSome then
        { d with type := some "gif" }
      else d
    { d1 with animated := true }

/-- The `if(!apiDoc.mime_type)` fallback table. -/
def mimeFallback (d : MTDocument) : MTDocument :=
  if strFalsy d.mime_type then
    { d with mime_type := some (match d.type with
        | some "gif" => "video/mp4"
        | some "video" => "video/mp4"
        | some "round" => "video/mp4"
        | some "sticker" => "image/webp"
        | some "audio" => "audio/mpeg"
        | some "voice" => "audio/ogg"
        | _ => "application/octet-stream") }
  else d

/-- The registry's state: `docs` keyed by document id, the thumbnail promise
cache (`thumbs`, keyed by `id + '-' + size`, values are future ids), and the
log of `apiFileManager.saveSmallFile` calls made while normalizing cached
thumbs. -/
structure DocsState where
  docs : List (Nat × MTDocument)
  thumbsCache : List (String × Nat)
  savedSmallFiles : List (Nat × List Nat)
deriving DecidableEq, Repr

def emptyDocsState : DocsState := ⟨[], [], []⟩

/-- The `photoCachedSize` handling: persist the inline bytes via the small-file
store, then strip them (`size := bytes.length`, tag becomes `photoSize`).
`bytes.length` on absent bytes would throw in JS (`Except.error`). -/
def normalizeThumbCached (st : DocsState) (d : MTDocument) :
    Except Unit (DocsState × MTDocument) :=
  match d.thumb with
  | some t =>
    if t.tag = ThumbTag.photoCachedSize then
      match t.bytes with
      | none => Except.error ()
      | some bs =>
        Except.ok
          ({ st with savedSmallFiles := (t.location, bs) :: st.savedSmallFiles },
           { d with thumb := some { tag := ThumbTag.photoSize, bytes := none,
                                    size := bs.length, location := t.location } })
    else Except.ok (st, d)
  | none => Except.ok (st, d)

/-- The extra caller-supplied keys `Object.assign`ed onto a descriptor
(`context`); modelled as a closed overlay of cache-state fields. -/
structure DocContext where
  downloaded : Option Bool
  url : Option String
deriving DecidableEq, Repr

def assignContext (d : MTDocument) (c : DocContext) : MTDocument :=
  { d with downloaded := c.downloaded.getD d.downloaded,
           url := match c.url with | some u => some u | none => d.url }

/-- The merge branch of `saveDoc` for an already-registered id: adopt the new
`thumbs` list when the stored one is absent, else prepend the new head thumb
when it carries bytes and the stored head does not.  The JS indexes
`thumbs[0]` without a bounds check, so an empty list on either side throws
(`Except.error`), exactly where the source would. -/
def mergeThumbs (d : MTDocument) (newThumbs : Option (List PhotoSize)) :
    Except Unit MTDocument :=
  match newThumbs, d.thumbs with
  | none, _ => Except.ok d
  | some ts, none => Except.ok { d with thumbs := some ts }
  | some [], some _ => Except.error ()
  | some (t :: _), some dts =>
    match t.bytes with
    | some _ =>
      match dts with
      | [] => Except.error ()
      | dt :: _ =>
        match dt.bytes with
        | none => Except.ok { d with thumbs := some (t :: dts) }
        | some _ => Except.ok d
    | none => Except.ok d

/-- Source line `if(apiDoc.thumb && apiDoc.thumb._ == 'photoSizeEmpty') delete apiDoc.thumb`. -/
def stripEmptyThumb (d : MTDocument) : MTDocument :=
  match d.thumb with
  | some t =>
    if t.tag = ThumbTag.photoSizeEmpty then { d with thumb := none } else d
  | none => d

/-- Source `apiDoc.attributes.forEach(...)`: left-to-right over the attribute list. -/
def applyAttributes (tp : RichTextProc) (d : MTDocument) : MTDocument :=
  d.attributes.foldl (processAttribute tp) d

/-- Source line `if(!apiDoc.file_name) apiDoc.file_name = ''`. -/
def fileNameFallback (d : MTDocument) : MTDocument :=
  if strFalsy d.file_name then { d with file_name := some "" } else d

/-- The animated-`tgs` sticker special case. -/
def tgsStickerFix (d : MTDocument) : MTDocument :=
  if d.mime_type = some "application/x-tgsticker" ∧
      d.file_name = some "AnimatedSticker.tgs" then
    { d with type := some "sticker", animated := true, sticker := some 2 }
  else d

/-- Source line `if(apiDoc._ == 'documentEmpty') apiDoc.size = 0`. -/
def emptySizeFix (d : MTDocument) : MTDocument :=
  if d.tag = DocTag.documentEmpty then { d with size := 0 } else d

/-- The first-insert branch of `saveDoc`: the descriptor (with `context`
already overlaid) is stored and then normalized in place — legacy `thumb`
handling, the attribute switch, the MIME fallback, the `file_name` fallback,
the animated-`tgs` sticker special case, and `size := 0` for `documentEmpty`.
The JS stores the object before mutating it in place; the stored value is
therefore the fully-normalized one. -/
def saveDocFresh (tp : RichTextProc) (st : DocsState) (doc0 : MTDocument) :
    Except Unit (MTDocument × DocsState) :=
  match normalizeThumbCached st doc0 with
  | Except.error e => Except.error e
  | Except.ok (st1, d1) =>
    let d7 := emptySizeFix (tgsStickerFix (fileNameFallback
      (mimeFallback (applyAttributes tp (stripEmptyThumb d1)))))
    Except.ok (d7, { st1 with docs := alSet st1.docs doc0.id d7 })

/-- The already-registered branch of `saveDoc`: merge thumbs into the stored
descriptor `d`, overlay `context`, and return the stored (in-place mutated)
result — without processing the new descriptor's attributes. -/
def saveDocMerge (st : DocsState) (apiDoc : MTDocument)
    (context : Option DocContext) (d : MTDocument) :
    Except Unit (MTDocument × DocsState) :=
  match mergeThumbs d apiDoc.thumbs with
  | Except.error e => Except.error e
  | Except.ok d1 =>
    let res := match context with
      | some c => assignContext d1 c
      | none => d1
    Except.ok (res, { st with docs := alSet st.docs apiDoc.id res })

/-- Source `saveDoc(apiDoc, context?)`: merge branch for a known id, first-insert
normalization for a fresh one. -/
def saveDoc (tp : RichTextProc) (st : DocsState) (apiDoc : MTDocument)
    (context : Option DocContext) : Except Unit (MTDocument × DocsState) :=
  match alGet st.docs apiDoc.id with
  | some d => saveDocMerge st apiDoc context d
  | none =>
    saveDocFresh tp st
      (match context with
       | some c => assignContext apiDoc c
       | none => apiDoc)

/-- Source `getDoc(docID)` for an id key (the object-passthrough overload is the
identity). -/
def getDoc (st : DocsState) (docID : Nat) : Option MTDocument :=
  alGet st.docs docID

/-! ### Claim C2 — merge on re-save -/

def placeholderThumb : PhotoSize := ⟨none, "i"⟩

def richThumb : PhotoSize := ⟨some [1, 2, 3], "m"⟩

/-- First save of id 42: only a byte-less placeholder thumbnail, no filename
attribute. -/
def doc42first : MTDocument :=
  { baseDoc with id := 42, thumbs := some [placeholderThumb],
                 mime_type := some "text/plain" }

/-- Second save of id 42: a byte-carrying thumbnail and a filename
attribute. -/
def doc42second : MTDocument :=
  { baseDoc with id := 42, thumbs := some [richThumb],
                 mime_type := some "text/plain",
                 attributes := [DocAttribute.documentAttributeFilename "name.txt"] }

/-- Save `doc42first` into an empty registry, then save `doc42second`. -/
def mergeScenario : Except Unit (MTDocument × DocsState) :=
  match saveDoc idRichTextProc emptyDocsState doc42first none with
  | Except.ok (_, st1) => saveDoc idRichTextProc st1 doc42second none
  | Except.error e => Except.error e

/-- The filename of the descriptor returned by the second save. -/
def mergeScenarioFileName : Option String :=
  match mergeScenario with
  | Except.ok (r, _) => r.file_name
  | Except.error _ => none

/-- Claim C2 (counterexample): after the two saves the stored descriptor's
filename is the first save's `''`, NOT `"name.txt"` from the second save's
attribute — the merge branch of `saveDoc` returns before the attribute
switch, so later saves never process attributes. -/
theorem saveDoc_merge_filename_cex :
    mergeScenarioFileName = some "" ∧ mergeScenarioFileName ≠ some "name.txt" := by
  constructor
  · rfl
  · decide

/-- The descriptor stored for id 42 after both saves: the richer thumbnail is
prepended (ordered first), the filename keeps the first save's value. -/
def mergedDoc42 : MTDocument :=
  { doc42first with file_name := some "",
                    thumbs := some [richThumb, placeholderThumb] }

/-- Claim C2 (amended): re-saving id 42 merges rather than replaces — the
registry holds exactly one descriptor for id 42, its thumbnail list has the
byte-carrying thumbnail ordered first — but the filename is the one derived
by the FIRST save (`''`, since it had no filename attribute); the second
save's attribute list is not processed. -/
theorem saveDoc_merge_amended :
    mergeScenario = Except.ok (mergedDoc42, ⟨[(42, mergedDoc42)], [], []⟩) := by
  rfl

/-! ### Claim C3 — type classification -/

/-- The type (if any) that a single attribute assigns, as a function of the
descriptor's (never-mutated-during-the-fold) `mime_type` and `thumbs`. -/
def attrTypeEffect (d : MTDocument) : DocAttribute → Option String
  | DocAttribute.documentAttributeAudio _ _ _ voice =>
    some (if voice then "voice" else "audio")
  | DocAttribute.documentAttributeVideo _ _ _ round_message =>
    some (if d.thumbs.isSome ∧ round_message then "round" else "video")
  | DocAttribute.documentAttributeSticker _ _ =>
    if d.mime_type = some "image/webp" then some "sticker" else none
  | DocAttribute.documentAttributeAnimated =>
    if (d.mime_type = some "image/gif" ∨ d.mime_type = some "video/mp4") ∧
        d.thumbs.isSome then some "gif"
    else none
  | _ => none

/-- One step of the derived type computation: a type-assigning attribute
overwrites the running value, any other attribute keeps it. -/
def typeStep (d : MTDocument) (t : Option String) (a : DocAttribute) :
    Option String :=
  match attrTypeEffect d a with
  | some x => some x
  | none => t

/-- The classification the attribute `forEach` computes before the
animated-`tgs` special case: the LAST type-assigning attribute in list order
wins (not a fixed precedence). -/
def lastTypeOf (d : MTDocument) (attrs : List DocAttribute) : Option String :=
  attrs.foldl (typeStep d) d.type

/-- One step of the filename computation of the attribute fold: a filename
attribute overwrites the running value, any other attribute keeps it. -/
def fileNameStep (tp : RichTextProc) (fn : Option String) :
    DocAttribute → Option String
  | DocAttribute.documentAttributeFilename s => some (tp.wrapPlainText s)
  | _ => fn

/-- The filename a fresh save stores: the last filename attribute
(text-wrapped), else the original value, with the falsy fallback `''`. -/
def finalFileName (tp : RichTextProc) (doc : MTDocument) : Option String :=
  let folded := doc.attributes.foldl (fileNameStep tp) doc.file_name
  if strFalsy folded then some "" else folded

/-- The full classification a fresh save stores: the last type-assigning
attribute wins, after which the animated-`tgs` special case overrides the
type to `sticker` for a document whose MIME is `application/x-tgsticker` and
whose resulting filename is `AnimatedSticker.tgs`. -/
def classifyType (tp : RichTextProc) (doc : MTDocument) : Option String :=
  if doc.mime_type = some "application/x-tgsticker" ∧
      finalFileName tp doc = some "AnimatedSticker.tgs" then some "sticker"
  else lastTypeOf doc doc.attributes

theorem processAttribute_mime (tp : RichTextProc) (d : MTDocument)
    (a : DocAttribute) : (processAttribute tp d a).mime_type = d.mime_type := by
  cases a <;>
    first
      | rfl
      | (rename_i alt ss
         rcases alt with _ | a <;> rcases ss with _ | (_ | sid) <;>
           simp [processAttribute] <;> split_ifs <;> rfl)
      | (simp [processAttribute] <;> split_ifs <;> rfl)

theorem processAttribute_thumbs (tp : RichTextProc) (d : MTDocument)
    (a : DocAttribute) : (processAttribute tp d a).thumbs = d.thumbs := by
  cases a <;>
    first
      | rfl
      | (rename_i alt ss
         rcases alt with _ | a <;> rcases ss with _ | (_ | sid) <;>
           simp [processAttribute] <;> split_ifs <;> rfl)
      | (simp [processAttribute] <;> split_ifs <;> rfl)

theorem processAttribute_type (tp : RichTextProc) (d : MTDocument)
    (a : DocAttribute) :
    (processAttribute tp d a).type = typeStep d d.type a := by
  cases a <;>
    first
      | rfl
      | (rename_i alt ss
         rcases alt with _ | a <;> rcases ss with _ | (_ | sid) <;>
           simp [processAttribute, typeStep, attrTypeEffect] <;>
           split_ifs <;> simp_all)
      | (simp [processAttribute, typeStep, attrTypeEffect] <;>
         split_ifs <;> simp_all)

theorem processAttribute_file_name (tp : RichTextProc) (d : MTDocument)
    (a : DocAttribute) :
    (processAttribute tp d a).file_name = fileNameStep tp d.file_name a := by
  cases a <;>
    first
      | rfl
      | (rename_i alt ss
         rcases alt with _ | a <;> rcases ss with _ | (_ | sid) <;>
           simp [processAttribute, fileNameStep] <;> split_ifs <;> rfl)
      | (simp [processAttribute, fileNameStep] <;> split_ifs <;> rfl)

theorem foldl_processAttribute_file_name (tp : RichTextProc)
    (attrs : List DocAttribute) (d : MTDocument) :
    (attrs.foldl (processAttribute tp) d).file_name =
      attrs.foldl (fileNameStep tp) d.file_name := by
  induction attrs generalizing d with
  | nil => rfl
  | cons a rest ih =>
    simp only [List.foldl]
    rw [ih, processAttribute_file_name]

theorem attrTypeEffect_congr (d d0 : MTDocument) (a : DocAttribute)
    (hm : d.mime_type = d0.mime_type) (ht : d.thumbs = d0.thumbs) :
    attrTypeEffect d a = attrTypeEffect d0 a := by
  cases a <;> simp [attrTypeEffect, hm, ht]

theorem foldl_processAttribute_type (tp : RichTextProc)
    (attrs : List DocAttribute) (d d0 : MTDocument)
    (hm : d.mime_type = d0.mime_type) (ht : d.thumbs = d0.thumbs) :
    (attrs.foldl (processAttribute tp) d).type =
      attrs.foldl (typeStep d0) d.type := by
  induction attrs generalizing d with
  | nil => rfl
  | cons a rest ih =>
    simp only [List.foldl]
    rw [ih (processAttribute tp d a)
      (by rw [processAttribute_mime]; exact hm)
      (by rw [processAttribute_thumbs]; exact ht)]
    rw [processAttribute_type]
    simp only [typeStep]
    rw [attrTypeEffect_congr d d0 a hm ht]

theorem foldl_processAttribute_mime (tp : RichTextProc)
    (attrs : List DocAttribute) (d : MTDocument) :
    (attrs.foldl (processAttribute tp) d).mime_type = d.mime_type := by
  induction attrs generalizing d with
  | nil => rfl
  | cons a rest ih =>
    simp only [List.foldl]
    rw [ih, processAttribute_mime]

theorem lastTypeOf_congr (d d0 : MTDocument) (attrs : List DocAttribute)
    (hm : d.mime_type = d0.mime_type) (ht : d.thumbs = d0.thumbs)
    (hty : d.type = d0.type) : lastTypeOf d attrs = lastTypeOf d0 attrs := by
  have hstep : typeStep d = typeStep d0 := by
    funext t a
    unfold typeStep
    rw [attrTypeEffect_congr d d0 a hm ht]
  rw [lastTypeOf, lastTypeOf, hstep, hty]

theorem assignContext_fields (d : MTDocument) (c : DocContext) :
    (assignContext d c).mime_type = d.mime_type ∧
    (assignContext d c).thumbs = d.thumbs ∧
    (assignContext d c).type = d.type ∧
    (assignContext d c).attributes = d.attributes ∧
    (assignContext d c).id = d.id := ⟨rfl, rfl, rfl, rfl, rfl⟩

theorem normalizeThumbCached_ok (st : DocsState) (d : MTDocument)
    (st2 : DocsState) (d1 : MTDocument)
    (h : normalizeThumbCached st d = Except.ok (st2, d1)) :
    d1.mime_type = d.mime_type ∧ d1.thumbs = d.thumbs ∧ d1.type = d.type ∧
    d1.attributes = d.attributes ∧ d1.file_name = d.file_name := by
  unfold normalizeThumbCached at h
  repeat split at h
  all_goals cases h <;> exact ⟨rfl, rfl, rfl, rfl, rfl⟩

theorem stripEmptyThumb_fields (d : MTDocument) :
    (stripEmptyThumb d).mime_type = d.mime_type ∧
    (stripEmptyThumb d).thumbs = d.thumbs ∧
    (stripEmptyThumb d).type = d.type ∧
    (stripEmptyThumb d).attributes = d.attributes ∧
    (stripEmptyThumb d).file_name = d.file_name := by
  unfold stripEmptyThumb
  repeat split
  all_goals exact ⟨rfl, rfl, rfl, rfl, rfl⟩

theorem mimeFallback_fields (d : MTDocument) :
    (mimeFallback d).type = d.type := by
  unfold mimeFallback
  split <;> rfl

theorem mimeFallback_file_name (d : MTDocument) :
    (mimeFallback d).file_name = d.file_name := by
  unfold mimeFallback
  split <;> rfl

/-- The MIME fallback table never produces the animated-sticker MIME, so the
MIME equals `application/x-tgsticker` after the fallback exactly when it did
before. -/
theorem mimeFallback_mime_tg (d : MTDocument) :
    (mimeFallback d).mime_type = some "application/x-tgsticker" ↔
      d.mime_type = some "application/x-tgsticker" := by
  unfold mimeFallback
  split
  · rename_i hfal
    constructor
    · intro hc
      exfalso
      simp only [Option.some.injEq] at hc
      revert hc
      split <;> decide
    · intro hc
      exfalso
      rw [hc] at hfal
      simp [strFalsy] at hfal
  · exact Iff.rfl

theorem fileNameFallback_file_name (d : MTDocument) :
    (fileNameFallback d).file_name =
      if strFalsy d.file_name then some "" else d.file_name := by
  unfold fileNameFallback
  split <;> simp_all

theorem mimeFallback_not_tg (d : MTDocument)
    (h : d.mime_type ≠ some "application/x-tgsticker") :
    (mimeFallback d).mime_type ≠ some "application/x-tgsticker" := by
  unfold mimeFallback
  split
  · intro hc
    simp only [Option.some.injEq] at hc
    revert hc
    split <;> decide
  · exact h

theorem fileNameFallback_fields (d : MTDocument) :
    (fileNameFallback d).type = d.type ∧
    (fileNameFallback d).mime_type = d.mime_type := by
  unfold fileNameFallback
  split <;> exact ⟨rfl, rfl⟩

theorem tgsStickerFix_type (d : MTDocument)
    (h : d.mime_type ≠ some "application/x-tgsticker") :
    (tgsStickerFix d).type = d.type := by
  unfold tgsStickerFix
  rw [if_neg (fun hc => h hc.1)]

theorem emptySizeFix_type (d : MTDocument) :
    (emptySizeFix d).type = d.type := by
  unfold emptySizeFix
  split <;> rfl

/-- Helper predicate: a merge result preserves the stored `type`. -/
def typePreserved (d : MTDocument) : Except Unit MTDocument → Prop
  | Except.ok d1 => d1.type = d.type
  | Except.error _ => True

theorem mergeThumbs_type_total (d : MTDocument) (nt : Option (List PhotoSize)) :
    typePreserved d (mergeThumbs d nt) := by
  unfold mergeThumbs
  repeat' split
  all_goals first | trivial | rfl

theorem mergeThumbs_ok (d : MTDocument) (nt : Option (List PhotoSize))
    (d1 : MTDocument) (h : mergeThumbs d nt = Except.ok d1) :
    d1.type = d.type := by
  have ht := mergeThumbs_type_total d nt
  rw [h] at ht
  exact ht

theorem assignContext_type (d : MTDocument) (c : DocContext) :
    (assignContext d c).type = d.type := rfl

/-- Fresh-path helper: the stored descriptor's `type` is the full
classification — the last type assignment of the attribute fold, overridden
to `sticker` by the animated-`tgs` special case when its MIME/filename
condition holds. -/
theorem saveDocFresh_type (tp : RichTextProc) (st : DocsState)
    (doc0 : MTDocument) (r : MTDocument) (st1 : DocsState)
    (h : saveDocFresh tp st doc0 = Except.ok (r, st1)) :
    r.type = classifyType tp doc0 := by
  unfold saveDocFresh at h
  cases hn : normalizeThumbCached st doc0 with
  | error e =>
    rw [hn] at h
    cases h
  | ok p =>
    obtain ⟨st2, d1⟩ := p
    rw [hn] at h
    simp only [Except.ok.injEq, Prod.mk.injEq] at h
    obtain ⟨h4, h5⟩ := h
    subst h4
    obtain ⟨hm1, ht1, hty1, hat1, hfn1⟩ := normalizeThumbCached_ok st doc0 st2 d1 hn
    obtain ⟨hm2, ht2, hty2, hat2, hfn2⟩ := stripEmptyThumb_fields d1
    have hAm : (applyAttributes tp (stripEmptyThumb d1)).mime_type =
        doc0.mime_type := by
      unfold applyAttributes
      rw [foldl_processAttribute_mime, hm2, hm1]
    have hAfn : (applyAttributes tp (stripEmptyThumb d1)).file_name =
        doc0.attributes.foldl (fileNameStep tp) doc0.file_name := by
      unfold applyAttributes
      rw [foldl_processAttribute_file_name, hat2, hat1, hfn2, hfn1]
    have h5fn : (fileNameFallback (mimeFallback
        (applyAttributes tp (stripEmptyThumb d1)))).file_name =
        finalFileName tp doc0 := by
      rw [fileNameFallback_file_name, mimeFallback_file_name, hAfn]
      rfl
    have h5m : ((fileNameFallback (mimeFallback
        (applyAttributes tp (stripEmptyThumb d1)))).mime_type =
          some "application/x-tgsticker") ↔
        doc0.mime_type = some "application/x-tgsticker" := by
      rw [(fileNameFallback_fields _).2, mimeFallback_mime_tg, hAm]
    by_cases hcond : doc0.mime_type = some "application/x-tgsticker" ∧
        finalFileName tp doc0 = some "AnimatedSticker.tgs"
    · rw [emptySizeFix_type]
      unfold tgsStickerFix
      rw [if_pos ⟨h5m.mpr hcond.1, h5fn.trans hcond.2⟩]
      unfold classifyType
      rw [if_pos hcond]
    · rw [emptySizeFix_type]
      unfold tgsStickerFix
      rw [if_neg (fun hc => hcond ⟨h5m.mp hc.1, h5fn.symm.trans hc.2⟩)]
      unfold classifyType
      rw [if_neg hcond]
      rw [(fileNameFallback_fields _).1, mimeFallback_fields]
      unfold applyAttributes
      rw [hat2, hat1]
      rw [foldl_processAttribute_type tp doc0.attributes (stripEmptyThumb d1)
        doc0 (by rw [hm2, hm1]) (by rw [ht2, ht1])]
      rw [hty2, hty1]
      rfl

/-- Merge-path helper: re-saving a known id never recomputes `type`. -/
theorem saveDocMerge_keeps_type (st : DocsState) (doc : MTDocument)
    (ctx : Option DocContext) (d r : MTDocument) (st1 : DocsState)
    (hsave : saveDocMerge st doc ctx d = Except.ok (r, st1)) :
    r.type = d.type := by
  unfold saveDocMerge at hsave
  cases hm : mergeThumbs d doc.thumbs with
  | error e =>
    rw [hm] at hsave
    cases hsave
  | ok d1 =>
    rw [hm] at hsave
    cases ctx with
    | none =>
      cases hsave
      exact mergeThumbs_ok d doc.thumbs d1 hm
    | some c =>
      cases hsave
      rw [assignContext_type]
      exact mergeThumbs_ok d doc.thumbs d1 hm

/-- Claim C3 (amended): `saveDoc` classifies `type` by folding the attribute
list left to right, each type-assigning attribute overwriting the previous —
the LAST one wins (`voice`/`audio` from an audio attribute; `round`/`video`
from a video attribute; `sticker` from a sticker attribute only when the MIME
is `image/webp`; `gif` from an animated attribute only when the MIME is
gif/mp4 and a thumbs list exists; an image-size attribute assigns no type) —
after which the animated-sticker special case overrides the type to
`sticker` for a document whose MIME is `application/x-tgsticker` and whose
resulting filename is `AnimatedSticker.tgs`; so the result is NOT
order-independent; the classification runs only on first insert: a later
save of the same identity never changes the stored `type`. -/
theorem saveDoc_type_classification :
    (∀ (tp : RichTextProc) (st : DocsState) (doc : MTDocument)
       (ctx : Option DocContext) (r : MTDocument) (st1 : DocsState),
      alGet st.docs doc.id = none →
      saveDoc tp st doc ctx = Except.ok (r, st1) →
      r.type = classifyType tp doc) ∧
    (∀ (tp : RichTextProc) (st : DocsState) (doc : MTDocument)
       (ctx : Option DocContext) (d r : MTDocument) (st1 : DocsState),
      alGet st.docs doc.id = some d →
      saveDoc tp st doc ctx = Except.ok (r, st1) →
      r.type = d.type) := by
  constructor
  · intro tp st doc ctx r st1 hfresh hsave
    unfold saveDoc at hsave
    rw [hfresh] at hsave
    cases ctx with
    | none => exact saveDocFresh_type tp st doc r st1 hsave
    | some c => exact saveDocFresh_type tp st (assignContext doc c) r st1 hsave
  · intro tp st doc ctx d r st1 hd hsave
    unfold saveDoc at hsave
    rw [hd] at hsave
    exact saveDocMerge_keeps_type st doc ctx d r st1 hsave

/-- A fresh animated-tgs sticker document: its attribute fold assigns no
type (the filename attribute is not type-assigning), yet the stored
classification is `sticker` via the special case. -/
def tgsDoc : MTDocument :=
  { baseDoc with id := 7, mime_type := some "application/x-tgsticker",
                 attributes :=
                   [DocAttribute.documentAttributeFilename "AnimatedSticker.tgs"] }

/-- Witness for `saveDoc_type_classification`: both branches applied at
concrete inputs — a fresh save of `doc42first`, a fresh save of the
animated-tgs `tgsDoc` (where the special case overrides the fold's `none`
to `sticker`), and a re-save. -/
theorem saveDoc_type_classification_witness :
    (∃ r st1, saveDoc idRichTextProc emptyDocsState doc42first none =
        Except.ok (r, st1) ∧ r.type = classifyType idRichTextProc doc42first) ∧
    (∃ r st3, saveDoc idRichTextProc emptyDocsState tgsDoc none =
        Except.ok (r, st3) ∧ r.type = classifyType idRichTextProc tgsDoc ∧
        r.type = some "sticker" ∧ lastTypeOf tgsDoc tgsDoc.attributes = none) ∧
    (∃ r st2, mergeScenario = Except.ok (r, st2) ∧ r.type = mergedDoc42.type) := by
  refine ⟨?_, ?_, ?_⟩
  · refine ⟨{ doc42first with file_name := some "" },
      ⟨[(42, { doc42first with file_name := some "" })], [], []⟩, rfl, ?_⟩
    exact saveDoc_type_classification.1 idRichTextProc emptyDocsState doc42first
      none _ _ (by rfl) rfl
  · refine ⟨_, _, rfl, saveDoc_type_classification.1 idRichTextProc
      emptyDocsState tgsDoc none _ _ (by rfl) rfl, by decide, by decide⟩
  · refine ⟨mergedDoc42, ⟨[(42, mergedDoc42)], [], []⟩, by rfl, ?_⟩
    exact saveDoc_type_classification.2 idRichTextProc
      ⟨[(42, { doc42first with file_name := some "" })], [], []⟩ doc42second none
      { doc42first with file_name := some "" } mergedDoc42
      ⟨[(42, mergedDoc42)], [], []⟩ (by rfl) (by rfl)

/-- The `type` stored by a fresh save of a document carrying `attrs`. -/
def savedTypeFor (attrs : List DocAttribute) : Option String :=
  match saveDoc idRichTextProc emptyDocsState
      { baseDoc with id := 1, attributes := attrs,
                     mime_type := some "text/plain" } none with
  | Except.ok (r, _) => r.type
  | Except.error _ => none

def attrsAudioVideo : List DocAttribute :=
  [DocAttribute.documentAttributeAudio 10 "t" "p" true,
   DocAttribute.documentAttributeVideo 5 2 2 false]

def attrsVideoAudio : List DocAttribute :=
  [DocAttribute.documentAttributeVideo 5 2 2 false,
   DocAttribute.documentAttributeAudio 10 "t" "p" true]

/-- Claim C3 (counterexample): the resulting `type` is NOT independent of
attribute order — the same two attributes (a voice audio attribute and a
video attribute) classify as `video` in one order and `voice` in the other,
because the `forEach` lets the later attribute overwrite the earlier one
(the claimed precedence audio/voice > video/round would have given `voice`
both times). -/
theorem saveDoc_type_order_cex :
    savedTypeFor attrsAudioVideo = some "video" ∧
    savedTypeFor attrsVideoAudio = some "voice" ∧
    (some "video" : Option String) ≠ some "voice" := by
  refine ⟨rfl, rfl, by decide⟩

/-! ## Resource Cache (`downloadDoc`, `downloadDocThumb`,
`hasDownloadedThumb`) -/

/-- Outcome of a settled transfer future. -/
inductive FetchOutcome
  | success (bytes : List Nat)
  | failure
deriving DecidableEq, Repr

/-- State of the external `apiFileManager` transfer collaborator.  Futures
are numeric ids allocated from `nextFutureId`; `settled` records futures
that have settled (absence = still in flight); `fullTransfers` /
`smallTransfers` log one entry (the document id) per transfer actually
issued; `cachedFiles` backs `getCachedFile`. -/
structure FileManagerState where
  pendingFull : List (Nat × Nat)
  cachedFiles : List (Nat × List Nat)
  nextFutureId : Nat
  fullTransfers : List Nat
  smallTransfers : List Nat
  settled : List (Nat × FetchOutcome)
deriving DecidableEq, Repr

def emptyFileManagerState : FileManagerState := ⟨[], [], 0, [], [], []⟩

/-- Modelled from the spec: `apiFileManager.downloadFile`
(`../mtproto/apiFileManager` is not part of the sources here).  Per the
Pending Fetch invariant ("at most one Pending Fetch exists per (identity,
variant) at any time; all callers requesting the same variant while one is
outstanding receive the same future") and §4.4 ("deduping concurrent callers
via the Pending Fetch table keyed by identity"), a call while a full fetch
for the same identity is outstanding returns the existing future and issues
no transfer; otherwise it allocates a fresh future, records it in the
pending table, and issues exactly one transfer.  This matches the comment in
`downloadDoc` that the call returns the already-in-flight download. -/
def downloadFile (fm : FileManagerState) (docId : Nat) :
    Nat × FileManagerState :=
  match alGet fm.pendingFull docId with
  | some fid => (fid, fm)
  | none =>
    (fm.nextFutureId,
     { fm with pendingFull := alSet fm.pendingFull docId fm.nextFutureId,
               nextFutureId := fm.nextFutureId + 1,
               fullTransfers := docId :: fm.fullTransfers })

/-- Modelled from the spec: `apiFileManager.getCachedFile`
(`getCached(locator) → Bytes|undefined`). -/
def getCachedFile (fm : FileManagerState) (docId : Nat) : Option (List Nat) :=
  alGet fm.cachedFiles docId

/-- Modelled from the spec: `apiFileManager.downloadSmallFile`
(`downloadSmall(locator, …) → Future<Bytes>`): issues one small-variant
transfer and returns a fresh future (the thumbnail path's dedup lives in
`appDocsManager`, not here). -/
def downloadSmallFile (fm : FileManagerState) (docId : Nat) :
    Nat × FileManagerState :=
  (fm.nextFutureId,
   { fm with nextFutureId := fm.nextFutureId + 1,
             smallTransfers := docId :: fm.smallTransfers })

/-- A transfer future settles (resolves or rejects); this touches only the
collaborator's future table, never the caches of `appDocsManager`. -/
def settleFuture (fm : FileManagerState) (fid : Nat) (o : FetchOutcome) :
    FileManagerState :=
  { fm with settled := alSet fm.settled fid o }

/-- Result of `downloadDoc` as observed by the caller. -/
inductive DownloadResult
  | rejected
  | resolvedNull
  | resolvedCached (bytes : List Nat)
  | pending (futureId : Nat)
deriving DecidableEq, Repr

/-- Source `downloadDoc(docID, toFileEntry?)`: reject immediately for
`documentEmpty`; when already downloaded and no output sink was requested,
serve the resolved-`null` shortcut (a local URL exists) or a cached blob;
otherwise hand the request to the transfer collaborator (which dedups
concurrent callers per identity).  The success continuation (which sets
`downloaded` and a local URL) fires only when the shared future settles and
does not affect the dedup behaviour modelled here. -/
def downloadDoc (fm : FileManagerState) (doc : MTDocument)
    (toFileEntry : Bool) : DownloadResult × FileManagerState :=
  if doc.tag = DocTag.documentEmpty then (DownloadResult.rejected, fm)
  else
    if doc.downloaded ∧ toFileEntry = false then
      if doc.url.isSome then (DownloadResult.resolvedNull, fm)
      else
        match getCachedFile fm doc.id with
        | some b => (DownloadResult.resolvedCached b, fm)
        | none =>
          let p := downloadFile fm doc.id
          (DownloadResult.pending p.1, p.2)
    else
      let p := downloadFile fm doc.id
      (DownloadResult.pending p.1, p.2)

/-- Claim C1: for a document with no cached copy (`downloaded` unset, no
pending entry yet), a first `downloadDoc` returns a pending future and
issues exactly one transfer for that identity; a second `downloadDoc` for the
same identity while that fetch is outstanding returns the SAME future and
leaves the transfer state completely unchanged (no second transfer) — both
callers therefore observe the same eventual bytes of the shared future. -/
theorem downloadDoc_dedup (fm : FileManagerState) (doc : MTDocument)
    (h1 : doc.tag ≠ DocTag.documentEmpty) (h2 : doc.downloaded = false)
    (h3 : alGet fm.pendingFull doc.id = none) :
    ∃ fid,
      (downloadDoc fm doc false).1 = DownloadResult.pending fid ∧
      downloadDoc (downloadDoc fm doc false).2 doc false =
        (DownloadResult.pending fid, (downloadDoc fm doc false).2) ∧
      ((downloadDoc fm doc false).2).fullTransfers.count doc.id =
        fm.fullTransfers.count doc.id + 1 := by
  refine ⟨fm.nextFutureId, ?_, ?_, ?_⟩ <;>
    simp [downloadDoc, downloadFile, h1, h2, h3, alGet, alSet, List.count_cons]

/-- Witness for `downloadDoc_dedup` at a concrete fresh document and empty
transfer state. -/
theorem downloadDoc_dedup_witness :
    ({ baseDoc with id := 42 } : MTDocument).tag ≠ DocTag.documentEmpty ∧
    ∃ fid,
      (downloadDoc emptyFileManagerState { baseDoc with id := 42 } false).1 =
        DownloadResult.pending fid ∧
      downloadDoc (downloadDoc emptyFileManagerState { baseDoc with id := 42 } false).2
          { baseDoc with id := 42 } false =
        (DownloadResult.pending fid,
         (downloadDoc emptyFileManagerState { baseDoc with id := 42 } false).2) ∧
      ((downloadDoc emptyFileManagerState { baseDoc with id := 42 } false).2).fullTransfers.count 42 =
        emptyFileManagerState.fullTransfers.count 42 + 1 :=
  ⟨by decide,
   downloadDoc_dedup emptyFileManagerState { baseDoc with id := 42 }
     (by decide) (by rfl) (by rfl)⟩

/-! ### Thumbnail path (claim C9) -/

/-- Result of `downloadDocThumb` as observed by the caller. -/
inductive ThumbResult
  | rejected
  | pending (futureId : Nat)
deriving DecidableEq, Repr

/-- The thumbnail cache key `doc.id + '-' + thumbSize`. -/
def thumbKey (docId : Nat) (thumbSize : String) : String :=
  toString docId ++ "-" ++ thumbSize

/-- Source `downloadDocThumb(docID, thumbSize)`: serve the cached promise if one
exists (even a rejected one); reject for `documentEmpty`; otherwise issue the
small-variant transfer and store the resulting promise (the
`URL.createObjectURL` continuation of the transfer future) in the cache
synchronously — before the transfer settles. -/
def downloadDocThumb (ds : DocsState) (fm : FileManagerState)
    (doc : MTDocument) (thumbSize : String) :
    ThumbResult × DocsState × FileManagerState :=
  let key := thumbKey doc.id thumbSize
  match alGet ds.thumbsCache key with
  | some fid => (ThumbResult.pending fid, ds, fm)
  | none =>
    if doc.tag = DocTag.documentEmpty then (ThumbResult.rejected, ds, fm)
    else
      let p := downloadSmallFile fm doc.id
      (ThumbResult.pending p.1,
       { ds with thumbsCache := alSet ds.thumbsCache key p.1 }, p.2)

/-- Source `hasDownloadedThumb(docID, thumbSize)`: pure membership check. -/
def hasDownloadedThumb (ds : DocsState) (docId : Nat) (thumbSize : String) :
    Bool :=
  (alGet ds.thumbsCache (thumbKey docId thumbSize)).isSome

/-- Claim C9: for a non-empty document with no cached thumbnail promise yet,
the first `downloadDocThumb` stores the returned promise in the cache in the
same synchronous step (before the transfer settles), `hasDownloadedThumb`
then reports `true`, a repeat call while the transfer is still in flight
returns the same promise without touching any state, and after the
underlying future settles with ANY outcome — including failure — a repeat
call still returns the same cached promise and issues no new transfer, so a
failed thumbnail fetch is never retried. -/
theorem downloadDocThumb_memoized (ds : DocsState) (fm : FileManagerState)
    (doc : MTDocument) (thumbSize : String)
    (h1 : doc.tag ≠ DocTag.documentEmpty)
    (h2 : alGet ds.thumbsCache (thumbKey doc.id thumbSize) = none) :
    ∃ fid ds1 fm1,
      downloadDocThumb ds fm doc thumbSize = (ThumbResult.pending fid, ds1, fm1) ∧
      alGet ds1.thumbsCache (thumbKey doc.id thumbSize) = some fid ∧
      hasDownloadedThumb ds1 doc.id thumbSize = true ∧
      downloadDocThumb ds1 fm1 doc thumbSize =
        (ThumbResult.pending fid, ds1, fm1) ∧
      (∀ o, downloadDocThumb ds1 (settleFuture fm1 fid o) doc thumbSize =
        (ThumbResult.pending fid, ds1, settleFuture fm1 fid o)) := by
  refine ⟨fm.nextFutureId, { ds with thumbsCache := alSet ds.thumbsCache (thumbKey doc.id thumbSize) fm.nextFutureId }, { fm with nextFutureId := fm.nextFutureId + 1, smallTransfers := doc.id :: fm.smallTransfers }, ?_, ?_, ?_, ?_, ?_⟩ <;>
    simp [downloadDocThumb, downloadSmallFile, hasDownloadedThumb,
      settleFuture, h1, h2, alGet, alSet]

/-- Witness for `downloadDocThumb_memoized` at a concrete document and empty
caches. -/
theorem downloadDocThumb_memoized_witness :
    alGet emptyDocsState.thumbsCache (thumbKey 42 "m") = none ∧
    ∃ fid ds1 fm1,
      downloadDocThumb emptyDocsState emptyFileManagerState
          { baseDoc with id := 42 } "m" = (ThumbResult.pending fid, ds1, fm1) ∧
      alGet ds1.thumbsCache (thumbKey 42 "m") = some fid ∧
      hasDownloadedThumb ds1 42 "m" = true ∧
      downloadDocThumb ds1 fm1 { baseDoc with id := 42 } "m" =
        (ThumbResult.pending fid, ds1, fm1) ∧
      (∀ o, downloadDocThumb ds1 (settleFuture fm1 fid o)
          { baseDoc with id := 42 } "m" =
        (ThumbResult.pending fid, ds1, settleFuture fm1 fid o)) :=
  ⟨by rfl,
   downloadDocThumb_memoized emptyDocsState emptyFileManagerState
     { baseDoc with id := 42 } "m" (by decide) (by rfl)⟩

/-! ## Versioned State Container (`appStateManager`: `STATE_INIT`,
`loadSavedState`, `addLoadPromise`, `getState`) -/

def REFRESH_EVERY : Nat := 24 * 60 * 60 * 1000

/-- Models `App.version` — an opaque version string. -/
def STATE_VERSION : String := "appVersion"

structure Background where
  type : String
  blur : Bool
  highlightningColor : Option String
  color : Option String
  slug : Option String
deriving DecidableEq, Repr

structure Theme where
  name : String
  background : Background
deriving DecidableEq, Repr

/-- Models `settings.autoDownload` (the JS key `private` is a reserved word here). -/
structure AutoDownloadSettings where
  contacts : Bool
  «private» : Bool
  groups : Bool
  channels : Bool
deriving DecidableEq, Repr

structure AutoPlaySettings where
  gifs : Bool
  videos : Bool
deriving DecidableEq, Repr

structure StickersSettings where
  suggest : Bool
  loop : Bool
deriving DecidableEq, Repr

structure NotificationsSettings where
  sound : Bool
deriving DecidableEq, Repr

/-- The settings sub-record.  `background` and `nightTheme` are the
deprecated legacy fields; `themes` and `theme` are `Option` so that a legacy
snapshot lacking them (`hasOwnProperty` false) is representable. -/
structure Settings where
  messagesTextSize : Nat
  sendShortcut : String
  animationsEnabled : Bool
  autoDownload : AutoDownloadSettings
  autoPlay : AutoPlaySettings
  stickers : StickersSettings
  background : Option Background
  themes : Option (List Theme)
  theme : Option String
  notifications : NotificationsSettings
  nightTheme : Option Bool
deriving DecidableEq, Repr

inductive AuthState
  | authStateSignIn
  | authStateSignedIn
deriving DecidableEq, Repr

/-- Models `state.updates` — the update cursors. -/
structure Updates where
  seq : Option Nat
  pts : Option Nat
  date : Option Nat
deriving DecidableEq, Repr

/-- The state snapshot.  Opaque payloads (dialog records, message records,
chat/user objects, filters, drafts) are `Nat`s; the peer-keyed objects
`chats`/`users` are association lists whose values are `Option` so that the
JS idiom of assigning a possibly-`undefined` value under a key is
representable. -/
structure State where
  dialogs : List Nat
  allDialogsLoaded : List (Int × Bool)
  chats : List (Int × Option Nat)
  users : List (Int × Option Nat)
  messages : List Nat
  contactsList : List Int
  updates : Updates
  filters : List (Nat × Nat)
  maxSeenMsgId : Nat
  stateCreatedTime : Nat
  recentEmoji : List String
  topPeers : List Int
  recentSearch : List Int
  version : String
  authState : AuthState
  hiddenPinnedMessages : List (Int × Nat)
  settings : Settings
  keepSigned : Bool
  drafts : List (Nat × Nat)
deriving DecidableEq, Repr

def defaultThemes : List Theme :=
  [{ name := "day",
     background := { type := "image", blur := false,
                     highlightningColor := some "hsla(85.5319, 36.9171%, 40.402%, 0.4)",
                     color := none, slug := some "ByxGo2lrMFAIAAAAmkJxZabh8eM" } },
   { name := "night",
     background := { type := "color", blur := false,
                     highlightningColor := some "hsla(0, 0%, 3.82353%, 0.4)",
                     color := some "#0f0f0f", slug := none } }]

def defaultSettings : Settings where
  messagesTextSize := 16
  sendShortcut := "enter"
  animationsEnabled := true
  autoDownload := { contacts := true, «private» := true, groups := true,
                    channels := true }
  autoPlay := { gifs := true, videos := true }
  stickers := { suggest := true, loop := true }
  background := none
  themes := some defaultThemes
  theme := some "day"
  notifications := { sound := false }
  nightTheme := none

/-- Source `STATE_INIT`, parameterised by the module-load time (`Date.now()` at
construction). -/
def STATE_INIT (initTime : Nat) : State where
  dialogs := []
  allDialogsLoaded := []
  chats := []
  users := []
  messages := []
  contactsList := []
  updates := ⟨none, none, none⟩
  filters := []
  maxSeenMsgId := 0
  stateCreatedTime := initTime
  recentEmoji := []
  topPeers := []
  recentSearch := []
  version := STATE_VERSION
  authState := AuthState.authStateSignIn
  hiddenPinnedMessages := []
  settings := defaultSettings
  keepSigned := true
  drafts := []

/-- The values read from the durable store, one `Option` per canonical key
(`none` = the key was absent / `undefined`), plus the legacy `user_auth`
marker read alongside. -/
structure StoredState where
  dialogs : Option (List Nat)
  allDialogsLoaded : Option (List (Int × Bool))
  chats : Option (List (Int × Option Nat))
  users : Option (List (Int × Option Nat))
  messages : Option (List Nat)
  contactsList : Option (List Int)
  updates : Option Updates
  filters : Option (List (Nat × Nat))
  maxSeenMsgId : Option Nat
  stateCreatedTime : Option Nat
  recentEmoji : Option (List String)
  topPeers : Option (List Int)
  recentSearch : Option (List Int)
  version : Option String
  authState : Option AuthState
  hiddenPinnedMessages : Option (List (Int × Nat))
  settings : Option Settings
  keepSigned : Option Bool
  drafts : Option (List (Nat × Nat))
  user_auth : Option Nat
deriving DecidableEq, Repr

/-- A store snapshot with every key absent. -/
def emptyStored : StoredState :=
  ⟨none, none, none, none, none, none, none, none, none, none, none, none,
   none, none, none, none, none, none, none, none⟩

/-- The `ALL_KEYS.forEach` hydration step: use the stored value when the key
was present (including falsy values), else a deep copy of the default (deep
copies are value copies here). -/
def hydrateState (initTime : Nat) (stored : StoredState) : State where
  dialogs := stored.dialogs.getD (STATE_INIT initTime).dialogs
  allDialogsLoaded := stored.allDialogsLoaded.getD (STATE_INIT initTime).allDialogsLoaded
  chats := stored.chats.getD (STATE_INIT initTime).chats
  users := stored.users.getD (STATE_INIT initTime).users
  messages := stored.messages.getD (STATE_INIT initTime).messages
  contactsList := stored.contactsList.getD (STATE_INIT initTime).contactsList
  updates := stored.updates.getD (STATE_INIT initTime).updates
  filters := stored.filters.getD (STATE_INIT initTime).filters
  maxSeenMsgId := stored.maxSeenMsgId.getD (STATE_INIT initTime).maxSeenMsgId
  stateCreatedTime := stored.stateCreatedTime.getD (STATE_INIT initTime).stateCreatedTime
  recentEmoji := stored.recentEmoji.getD (STATE_INIT initTime).recentEmoji
  topPeers := stored.topPeers.getD (STATE_INIT initTime).topPeers
  recentSearch := stored.recentSearch.getD (STATE_INIT initTime).recentSearch
  version := stored.version.getD (STATE_INIT initTime).version
  authState := stored.authState.getD (STATE_INIT initTime).authState
  hiddenPinnedMessages := stored.hiddenPinnedMessages.getD (STATE_INIT initTime).hiddenPinnedMessages
  settings := stored.settings.getD (STATE_INIT initTime).settings
  keepSigned := stored.keepSigned.getD (STATE_INIT initTime).keepSigned
  drafts := stored.drafts.getD (STATE_INIT initTime).drafts

/-- The refresh step: when the snapshot is older than `REFRESH_EVERY`, reset
every `REFRESH_KEYS` field (`dialogs`, `allDialogsLoaded`, `messages`,
`contactsList`, `stateCreatedTime`, `updates`, `maxSeenMsgId`, `filters`,
`topPeers`) to a copy of its default and rebuild `users`/`chats` from the
(surviving) `recentSearch` list — a negative peer id is looked up in `chats`,
a non-negative one in `users`; the JS assigns `state.users[peerId]` even when
absent, hence the `Option.join` on the looked-up value. -/
def refreshState (initTime now : Nat) (state : State) : State :=
  if state.stateCreatedTime + REFRESH_EVERY < now then
    { state with
      dialogs := (STATE_INIT initTime).dialogs,
      allDialogsLoaded := (STATE_INIT initTime).allDialogsLoaded,
      messages := (STATE_INIT initTime).messages,
      contactsList := (STATE_INIT initTime).contactsList,
      stateCreatedTime := (STATE_INIT initTime).stateCreatedTime,
      updates := (STATE_INIT initTime).updates,
      maxSeenMsgId := (STATE_INIT initTime).maxSeenMsgId,
      filters := (STATE_INIT initTime).filters,
      topPeers := (STATE_INIT initTime).topPeers,
      chats := (state.recentSearch.filter (fun p => p < 0)).map
        (fun p => (p, (alGet state.chats p).join)),
      users := (state.recentSearch.filter (fun p => ¬p < 0)).map
        (fun p => (p, (alGet state.users p).join)) }
  else state

/-- Replace the background of the first theme with the given name
(`themes.find(...)` followed by an in-place mutation). -/
def setThemeBackground (bg : Background) (name : String) :
    List Theme → List Theme
  | [] => []
  | t :: rest =>
    if t.name = name then { t with background := bg } :: rest
    else t :: setThemeBackground bg name rest

/-- The legacy-background migration.  In the source the projected theme list
is written onto `STATE_INIT` and reaches the snapshot through the schema
back-fill of `validateInitObject` (`helpers/object`, outside these sources).
Modelled from the spec: "if the legacy single-background setting exists but
no per-theme background map does, project it onto the matching theme" (§4.1
step 4), the matching theme being the default-named one of the default theme
list, with the back-filled result landing in the snapshot (§3: missing
persisted fields are back-filled from defaults). -/
def migrateBackground (state : State) : State :=
  match state.settings.themes, state.settings.background with
  | none, some bg =>
    { state with settings :=
        { state.settings with
          themes := some (setThemeBackground bg
            (defaultSettings.theme.getD "day") defaultThemes) } }
  | _, _ => state

/-- The legacy-theme migration: if no `theme` name exists but the legacy
`nightTheme` flag does, derive the name from the flag. -/
def migrateTheme (state : State) : State :=
  match state.settings.theme, state.settings.nightTheme with
  | none, some night =>
    { state with settings :=
        { state.settings with theme := some (if night then "night" else "day") } }
  | _, _ => state

/-- Modelled from the spec: `validateInitObject(STATE_INIT, state)`
(`helpers/object`, outside these sources) — every field declared in the
canonical default schema is present after load, missing persisted fields
being back-filled from defaults (§3).  In this total embedding only the two
optional settings fields can still be absent. -/
def validateInitState (state : State) : State :=
  { state with settings :=
      { state.settings with
        themes := some (state.settings.themes.getD defaultThemes),
        theme := some (state.settings.theme.getD (defaultSettings.theme.getD "day")) } }

/-- Everything `loadSavedState` does after the refresh step: the two one-shot
migrations, schema validation, the `version` stamp, and forcing `authState`
to signed-in when a legacy `user_auth` marker was found.  (The
settings/user-auth broadcasts are signal-bus side effects with no bearing on
the snapshot.) -/
def finalizeState (user_auth : Option Nat) (s : State) : State :=
  let s1 := migrateBackground s
  let s2 := migrateTheme s1
  let s3 := validateInitState s2
  let s4 := { s3 with version := STATE_VERSION }
  match user_auth with
  | some _ => { s4 with authState := AuthState.authStateSignedIn }
  | none => s4

/-- The pure state computation of `loadSavedState` once all store reads have
arrived: hydrate, refresh, migrate/validate/stamp. -/
def processLoadedState (initTime now : Nat) (stored : StoredState) : State :=
  finalizeState stored.user_auth
    (refreshState initTime now (hydrateState initTime stored))

/-! ### Promise model: a settled promise is an `Except` value
(`.ok` = resolved, `.error` = rejected). -/

/-- Models `Promise.all`: resolves with the list of results, rejects with the first
rejection. -/
def promiseAll {ε α : Type} : List (Except ε α) → Except ε (List α)
  | [] => Except.ok []
  | x :: rest =>
    match x with
    | Except.ok a =>
      match promiseAll rest with
      | Except.ok others => Except.ok (a :: others)
      | Except.error e => Except.error e
    | Except.error e => Except.error e

/-- Models `p.then(onFulfilled, onRejected)` with both handlers supplied. -/
def promiseThen2 {ε ε2 α β : Type} (p : Except ε α)
    (onFulfilled : α → Except ε2 β) (onRejected : ε → Except ε2 β) :
    Except ε2 β :=
  match p with
  | Except.ok a => onFulfilled a
  | Except.error e => onRejected e

/-- Source `addLoadPromise(promise)` (the branch where `this.loaded` already
exists): push the promise and return
`Promise.all(this.loadPromises).then(() => this.state, () => this.state)`.
`state` is `this.state`, possibly still `undefined`. -/
def addLoadPromiseResult (state : Option State)
    (loadPromises : List (Except Unit Unit)) : Except Unit (Option State) :=
  promiseThen2 (promiseAll loadPromises)
    (fun _ => Except.ok state) (fun _ => Except.ok state)

/-- Claim C6: whatever the registered dependency's outcome — and whatever the
outcomes of the previously registered ones — the future returned by
`addLoadPromise` resolves to the in-memory snapshot; dependency failures are
swallowed, never propagated. -/
theorem addLoadPromise_swallows (state : Option State)
    (prev : List (Except Unit Unit)) (p : Except Unit Unit) :
    addLoadPromiseResult state (prev ++ [p]) = Except.ok state := by
  unfold addLoadPromiseResult promiseThen2
  cases hp : promiseAll (prev ++ [p]) <;> rfl

/-! ### `loadSavedState` / `getState` never reject (claim C10) -/

/-- The resolution value of `this.loaded`: the executor runs
`Promise.all(reads).then(arr => { …; resolve(this.state) }).catch(resolve)`,
so a failed store read resolves the promise WITH the rejection value (no
rejection ever escapes).  `reads` is the `Promise.all` over the per-key
`sessionStorage.get` calls; errors are opaque `Nat`s. -/
def loadedResult (initTime now : Nat) (reads : Except Nat StoredState) :
    Except Unit (State ⊕ Nat) :=
  promiseThen2 reads
    (fun stored => Except.ok (Sum.inl (processLoadedState initTime now stored)))
    (fun e => Except.ok (Sum.inr e))

/-- Models `this.state` after the load settles: set on the success path only. -/
def stateAfterLoad (initTime now : Nat) (reads : Except Nat StoredState) :
    Option State :=
  match reads with
  | Except.ok stored => some (processLoadedState initTime now stored)
  | Except.error _ => none

/-- What `loadSavedState()` returns: `addLoadPromise(this.loaded)`, the
dependency list holding (at least) the just-created load promise. -/
def loadSavedStateResult (initTime now : Nat)
    (reads : Except Nat StoredState) : Except Unit (Option State) :=
  addLoadPromiseResult (stateAfterLoad initTime now reads)
    [(loadedResult initTime now reads).map (fun _ => ())]

/-- Source `getState()`: the already-loaded snapshot, else `loadSavedState()`. -/
def getStateResult (initTime now : Nat) (currentState : Option State)
    (reads : Except Nat StoredState) : Except Unit (Option State) :=
  match currentState with
  | none => loadSavedStateResult initTime now reads
  | some s => Except.ok (some s)

/-- Claim C10: the load never rejects — when a durable-store read fails the
internal load promise resolves with the rejection value itself; the future
returned by `loadSavedState()` always resolves (to `this.state`), and so
does the one returned by `getState()`, loaded or not. -/
theorem load_never_rejects (i n : Nat) (reads : Except Nat StoredState)
    (cur : Option State) :
    (∀ e, loadedResult i n (Except.error e) = Except.ok (Sum.inr e)) ∧
    (∃ v, loadedResult i n reads = Except.ok v) ∧
    loadSavedStateResult i n reads = Except.ok (stateAfterLoad i n reads) ∧
    (∃ w, getStateResult i n cur reads = Except.ok w) := by
  have h3 : loadSavedStateResult i n reads =
      Except.ok (stateAfterLoad i n reads) := by
    unfold loadSavedStateResult addLoadPromiseResult promiseThen2
    cases hp : promiseAll [(loadedResult i n reads).map (fun _ => ())] <;> rfl
  refine ⟨fun e => rfl, ?_, h3, ?_⟩
  · cases reads with
    | ok s => exact ⟨Sum.inl (processLoadedState i n s), rfl⟩
    | error e => exact ⟨Sum.inr e, rfl⟩
  · cases cur with
    | none => exact ⟨stateAfterLoad i n reads, h3⟩
    | some s => exact ⟨some s, rfl⟩

/-! ### Migration idempotence (claim C8) -/

/-- Claim C8: on an already-migrated snapshot — the settings carry a themes
list and a theme name — both legacy migrations are no-ops, so running them a
second time produces no further change to the snapshot (in particular to its
settings). -/
theorem migrations_idempotent (s : State)
    (h1 : s.settings.themes.isSome = true)
    (h2 : s.settings.theme.isSome = true) :
    migrateBackground s = s ∧ migrateTheme s = s := by
  obtain ⟨ts, hth⟩ := Option.isSome_iff_exists.mp h1
  obtain ⟨tn, htn⟩ := Option.isSome_iff_exists.mp h2
  constructor
  · unfold migrateBackground
    rw [hth]
  · unfold migrateTheme
    rw [htn]

/-- Witness for `migrations_idempotent` at the default snapshot. -/
theorem migrations_idempotent_witness :
    (STATE_INIT 0).settings.themes.isSome = true ∧
    (STATE_INIT 0).settings.theme.isSome = true ∧
    migrateBackground (STATE_INIT 0) = STATE_INIT 0 ∧
    migrateTheme (STATE_INIT 0) = STATE_INIT 0 :=
  ⟨rfl, rfl, (migrations_idempotent (STATE_INIT 0) rfl rfl).1,
   (migrations_idempotent (STATE_INIT 0) rfl rfl).2⟩

/-! ### Refresh policy (claim C7) -/

/-- The refreshable fields plus the curated `users`/`chats` records and the
surviving `recentSearch` list, bundled for comparison. -/
structure RefreshView where
  dialogs : List Nat
  allDialogsLoaded : List (Int × Bool)
  messages : List Nat
  contactsList : List Int
  stateCreatedTime : Nat
  updates : Updates
  maxSeenMsgId : Nat
  filters : List (Nat × Nat)
  topPeers : List Int
  users : List (Int × Option Nat)
  chats : List (Int × Option Nat)
  recentSearch : List Int
deriving DecidableEq, Repr

def refreshView (s : State) : RefreshView :=
  ⟨s.dialogs, s.allDialogsLoaded, s.messages, s.contactsList,
   s.stateCreatedTime, s.updates, s.maxSeenMsgId, s.filters, s.topPeers,
   s.users, s.chats, s.recentSearch⟩

/-- The post-refresh pipeline (migrations, validation, version stamp, auth
override) touches only `settings`, `version` and `authState` — never a
refreshable field, `users`/`chats`, or `recentSearch`. -/
theorem refreshView_finalize (ua : Option Nat) (s : State) :
    refreshView (finalizeState ua s) = refreshView s := by
  cases ua <;>
    simp only [finalizeState, migrateBackground, migrateTheme,
      validateInitState, refreshView] <;>
    (repeat' split) <;> rfl

/-- Claim C7: when the stored `stateCreatedTime` is beyond the refresh
window, every refreshable field of the loaded snapshot (dialog list,
per-dialog load markers, message cache, contact list, `stateCreatedTime`,
update cursors, max-seen-message id, filters, top-peers) equals its default
and the `users`/`chats` records are rebuilt to exactly the peers referenced
by the surviving recent-search list (negative ids from `chats`, the rest
from `users`); when the stored `stateCreatedTime` equals `now`, no
refreshable field (nor `users`/`chats`/`recentSearch`) changes from its
hydrated value. -/
theorem load_refresh_policy (initTime now : Nat) (stored : StoredState) :
    (∀ t, stored.stateCreatedTime = some t → t + REFRESH_EVERY < now →
      refreshView (processLoadedState initTime now stored) =
        ⟨(STATE_INIT initTime).dialogs, (STATE_INIT initTime).allDialogsLoaded,
         (STATE_INIT initTime).messages, (STATE_INIT initTime).contactsList,
         (STATE_INIT initTime).stateCreatedTime, (STATE_INIT initTime).updates,
         (STATE_INIT initTime).maxSeenMsgId, (STATE_INIT initTime).filters,
         (STATE_INIT initTime).topPeers,
         ((hydrateState initTime stored).recentSearch.filter (fun p => ¬p < 0)).map
           (fun p => (p, (alGet (hydrateState initTime stored).users p).join)),
         ((hydrateState initTime stored).recentSearch.filter (fun p => p < 0)).map
           (fun p => (p, (alGet (hydrateState initTime stored).chats p).join)),
         (hydrateState initTime stored).recentSearch⟩) ∧
    (stored.stateCreatedTime = some now →
      refreshView (processLoadedState initTime now stored) =
        refreshView (hydrateState initTime stored)) := by
  constructor
  · intro t ht hlt
    unfold processLoadedState
    rw [refreshView_finalize]
    unfold refreshState
    have hsct : (hydrateState initTime stored).stateCreatedTime = t := by
      show stored.stateCreatedTime.getD ((STATE_INIT initTime).stateCreatedTime) = t
      rw [ht]
      rfl
    rw [hsct, if_pos hlt]
    rfl
  · intro hnow
    unfold processLoadedState
    rw [refreshView_finalize]
    unfold refreshState
    have hsct : (hydrateState initTime stored).stateCreatedTime = now := by
      show stored.stateCreatedTime.getD ((STATE_INIT initTime).stateCreatedTime) = now
      rw [hnow]
      rfl
    rw [hsct, if_neg (by omega)]

/-- A concrete stored snapshot: created at time 0, with a recent-search list
referencing user 3 and chat −4, a `users` record holding peers 3 and 9 and a
`chats` record holding peer −4. -/
def storedW : StoredState :=
  { emptyStored with stateCreatedTime := some 0,
                     recentSearch := some [3, -4],
                     users := some [(3, some 30), (9, some 90)],
                     chats := some [(-4, some 40)] }

def storedW2 : StoredState := { storedW with stateCreatedTime := some 77 }

/-- Witness for `load_refresh_policy`: loading `storedW` (age beyond the
refresh window) resets all refreshable fields to defaults and curates
`users`/`chats` down to the recent-search peers; loading `storedW2` at its
own creation time changes nothing refreshable. -/
theorem load_refresh_policy_witness :
    storedW.stateCreatedTime = some 0 ∧
    0 + REFRESH_EVERY < REFRESH_EVERY + 1 ∧
    refreshView (processLoadedState 5 (REFRESH_EVERY + 1) storedW) =
      ⟨[], [], [], [], 5, ⟨none, none, none⟩, 0, [], [],
       [(3, some 30)], [(-4, some 40)], [3, -4]⟩ ∧
    refreshView (processLoadedState 5 77 storedW2) =
      refreshView (hydrateState 5 storedW2) :=
  ⟨rfl, by decide,
   (load_refresh_policy 5 (REFRESH_EVERY + 1) storedW).1 0 rfl (by decide),
   (load_refresh_policy 5 77 storedW2).2 rfl⟩

end Tweb
